import Mathlib

/-!
Shallow embedding of the Tambourine server core
(src/server/main.py and src/server/api/config_server.py).

Module-level mutable globals of both Python modules are gathered into one
explicit state record `ProcState`; each endpoint or helper becomes a pure
function from state (and request data) to response and new state.

External collaborators that live outside the two embedded files
(pipecat services, the provider label tables, the settings loader, and the
prompt section combiner) enter the model as parameters: the service
dictionaries are represented by their key lists in insertion order, the
label tables by functions, a fallible awaited forward by a Boolean that says
whether it returned normally, and Python float values by rationals.
-/

namespace Tambourine

/-- Provider identifiers are the string values of the STTProviderId and
LLMProviderId enums. -/
abbrev ProviderId := String

/-- A peer connection id (the pc_id of a SmallWebRTCConnection). -/
abbrev ConnId := String

/-- Combined module-level state of src/server/main.py and
src/server/api/config_server.py.

A SmallWebRTCConnection is represented by its pc_id, so the
peer_connections_map becomes an association list from key to the pc_id of
the stored connection.  A service dictionary is represented by its key list
in insertion order (`none` when the global is still None).  The
transcription buffer is represented by its stored timeout (`none` when no
buffer has been registered), the LLM converter by its custom prompt
(`none` when no converter has been registered). -/
structure ProcState where
  /-- main.py `_settings` is set (not None). -/
  settingsSet : Bool := false
  /-- main.py `_stt_services` (keys, insertion order). -/
  startupStt : Option (List ProviderId) := none
  /-- main.py `_llm_services` (keys, insertion order). -/
  startupLlm : Option (List ProviderId) := none
  /-- main.py `peer_connections_map`: key, pc_id of the stored connection. -/
  peerConnections : List (ConnId × ConnId) := []
  /-- main.py `pipeline_tasks`, each task named by a number. -/
  pipelineTasks : List Nat := []
  /-- config_server.py `_llm_converter`: `some p` when registered with custom prompt p. -/
  llmConverter : Option (Option String) := none
  /-- config_server.py `_transcription_buffer`: `some t` when registered, storing timeout t. -/
  transcriptionBuffer : Option ℚ := none
  /-- config_server.py `_stt_switcher` is set (not None). -/
  sttSwitcher : Bool := false
  /-- config_server.py `_llm_switcher` is set (not None). -/
  llmSwitcher : Bool := false
  /-- config_server.py `_stt_services` (keys, insertion order). -/
  cfgSttServices : Option (List ProviderId) := none
  /-- config_server.py `_llm_services` (keys, insertion order). -/
  cfgLlmServices : Option (List ProviderId) := none
  /-- config_server.py `_current_stt_provider`. -/
  currentStt : Option ProviderId := none
  /-- config_server.py `_current_llm_provider`. -/
  currentLlm : Option ProviderId := none
  /-- config_server.py `_pipeline_started_event` is set. -/
  pipelineStarted : Bool := false
  deriving Repr, DecidableEq

/-- The state at process start: every global of both modules is None,
False, or empty. -/
def initState : ProcState := {}

/-- Python truthiness of an optional dict, represented by its key list:
None and the empty dict are falsy. -/
def truthyDict : Option (List ProviderId) → Bool
  | none => false
  | some l => !l.isEmpty

/-- config_server.set_pipeline_started: `_pipeline_started_event.set()`. -/
def set_pipeline_started (st : ProcState) : ProcState :=
  { st with pipelineStarted := true }

/-- config_server.reset_pipeline_started: `_pipeline_started_event.clear()`. -/
def reset_pipeline_started (st : ProcState) : ProcState :=
  { st with pipelineStarted := false }

/-- config_server.set_llm_converter: registers a freshly built converter
(no custom prompt yet). -/
def set_llm_converter (st : ProcState) : ProcState :=
  { st with llmConverter := some none }

/-- config_server.set_transcription_buffer: registers a freshly built
buffer whose initial timeout comes from the excluded processor module. -/
def set_transcription_buffer (st : ProcState) (initialTimeout : ℚ) : ProcState :=
  { st with transcriptionBuffer := some initialTimeout }

/-- config_server.set_service_switchers: stores the switcher and service
references, then sets each current provider to the first key of the
corresponding service dict whenever that dict is truthy (lines 89-119). -/
def set_service_switchers (st : ProcState)
    (sttServices llmServices : List ProviderId) : ProcState :=
  let st1 : ProcState :=
    { st with sttSwitcher := true, llmSwitcher := true,
              cfgSttServices := some sttServices,
              cfgLlmServices := some llmServices,
              settingsSet := true }
  let st2 : ProcState :=
    if sttServices.isEmpty then st1
    else { st1 with currentStt := sttServices.head? }
  if llmServices.isEmpty then st2
  else { st2 with currentLlm := llmServices.head? }

/-- Error discriminants of the switch endpoints (the Python code returns
formatted message strings; only their identity matters here). -/
inductive SwitchError where
  /-- switcher or service dict global is falsy. -/
  | notInitialized : SwitchError
  /-- requested provider id is not a key of the service dict. -/
  | notAvailable (provider : ProviderId) : SwitchError
  deriving Repr, DecidableEq

/-- Body of SwitchSTTProviderResponse / SwitchLLMProviderResponse. -/
structure SwitchProviderResponse where
  success : Bool
  provider : Option ProviderId := none
  error : Option SwitchError := none
  deriving Repr, DecidableEq

/-- Outcome of one switch endpoint call: a returned response, or an
exception propagating out of the awaited forward. -/
inductive SwitchOutcome where
  | responded (resp : SwitchProviderResponse) : SwitchOutcome
  | raised : SwitchOutcome
  deriving Repr, DecidableEq

/-- switch_stt_provider after `await _pipeline_started_event.wait()`
(config_server.py lines 295-311): validate the id against the service
dict keys, forward the ManuallySwitchServiceFrame to the switcher
(`forwardOk` says whether that awaited call returned normally), and only
then assign `_current_stt_provider`. -/
def switch_stt_after_gate (st : ProcState) (provider : ProviderId)
    (forwardOk : Bool) : SwitchOutcome × ProcState :=
  let services := st.cfgSttServices.getD []
  if provider ∉ services then
    (.responded { success := false, error := some (.notAvailable provider) }, st)
  else if forwardOk then
    (.responded { success := true, provider := some provider },
     { st with currentStt := some provider })
  else
    (.raised, st)

/-- switch_llm_provider after the readiness wait (config_server.py lines
329-345), symmetric to the STT case. -/
def switch_llm_after_gate (st : ProcState) (provider : ProviderId)
    (forwardOk : Bool) : SwitchOutcome × ProcState :=
  let services := st.cfgLlmServices.getD []
  if provider ∉ services then
    (.responded { success := false, error := some (.notAvailable provider) }, st)
  else if forwardOk then
    (.responded { success := true, provider := some provider },
     { st with currentLlm := some provider })
  else
    (.raised, st)

/-- config_server.switch_stt_provider (lines 280-311), as the function the
call computes once the readiness wait has been passed: the not-initialized
check precedes the wait, everything else follows it. -/
def switch_stt_provider (st : ProcState) (provider : ProviderId)
    (forwardOk : Bool) : SwitchOutcome × ProcState :=
  if !st.sttSwitcher || !truthyDict st.cfgSttServices then
    (.responded { success := false, error := some .notInitialized }, st)
  else
    switch_stt_after_gate st provider forwardOk

/-- config_server.switch_llm_provider (lines 314-345). -/
def switch_llm_provider (st : ProcState) (provider : ProviderId)
    (forwardOk : Bool) : SwitchOutcome × ProcState :=
  if !st.llmSwitcher || !truthyDict st.cfgLlmServices then
    (.responded { success := false, error := some .notInitialized }, st)
  else
    switch_llm_after_gate st provider forwardOk

/-- config_server.get_current_providers (lines 271-277): the response type
has no failure alternative; each field is the stored current provider id
or null. -/
def get_current_providers (st : ProcState) :
    Option ProviderId × Option ProviderId :=
  (st.currentStt, st.currentLlm)

example : switch_stt_provider initState "deepgram" true =
    (.responded { success := false, error := some .notInitialized }, initState) := by
  decide

example :
    (switch_stt_provider (set_service_switchers initState ["a", "b"] ["x"]) "b"
      true).2.currentStt = some "b" := by decide

/-- Error discriminants of the STT timeout endpoints. -/
inductive TimeoutErr where
  /-- `_transcription_buffer` is None. -/
  | bufferNotInitialized : TimeoutErr
  /-- timeout outside the closed interval from 0.1 to 10.0. -/
  | outOfRange : TimeoutErr
  deriving Repr, DecidableEq

/-- Body of STTTimeoutResponse. -/
structure STTTimeoutResponse where
  success : Bool
  timeout_seconds : Option ℚ := none
  error : Option TimeoutErr := none
  deriving Repr, DecidableEq

/-- config_server.get_stt_timeout (lines 367-376). -/
def get_stt_timeout (st : ProcState) : STTTimeoutResponse :=
  match st.transcriptionBuffer with
  | none => { success := false, error := some .bufferNotInitialized }
  | some t => { success := true, timeout_seconds := some t }

/-- config_server.set_stt_timeout (lines 379-395): fail when no buffer is
registered, fail when the value is below 0.1 or above 10.0, otherwise
store the new timeout in the buffer and return it. -/
def set_stt_timeout (st : ProcState) (seconds : ℚ) :
    STTTimeoutResponse × ProcState :=
  match st.transcriptionBuffer with
  | none => ({ success := false, error := some .bufferNotInitialized }, st)
  | some _ =>
    if seconds < 1 / 10 ∨ seconds > 10 then
      ({ success := false, error := some .outOfRange }, st)
    else
      ({ success := true, timeout_seconds := some seconds },
       { st with transcriptionBuffer := some seconds })

/-- One entry of the AvailableProvidersResponse lists. -/
structure ProviderInfo where
  value : String
  label : String
  deriving Repr, DecidableEq

/-- config_server.get_available_providers (lines 244-268): each list is
empty unless the corresponding config-module service dict is truthy, in
which case the dict keys are paired with their labels, falling back to the
id itself when no label is known.  The label tables from
services/provider_registry enter as the function arguments. -/
def get_available_providers (sttLabels llmLabels : ProviderId → Option String)
    (st : ProcState) : List ProviderInfo × List ProviderInfo :=
  let sttProviders :=
    if truthyDict st.cfgSttServices then
      (st.cfgSttServices.getD []).map
        (fun p => ProviderInfo.mk p ((sttLabels p).getD p))
    else []
  let llmProviders :=
    if truthyDict st.cfgLlmServices then
      (st.cfgLlmServices.getD []).map
        (fun p => ProviderInfo.mk p ((llmLabels p).getD p))
    else []
  (sttProviders, llmProviders)

/-- config_server.set_prompt_sections (lines 168-186): when the converter
is registered, apply the combined prompt (None when the combination is
falsy, that is, None or the empty string); otherwise fail.  The pure
combiner from processors.llm_cleanup enters as the `combined` argument. -/
def set_prompt_sections (st : ProcState) (combined : Option String) :
    (Bool × ProcState) :=
  match st.llmConverter with
  | some _ =>
    let applied := match combined with
      | some s => if s = "" then none else some s
      | none => none
    (true, { st with llmConverter := some applied })
  | none => (false, st)

/-- Python truthiness of the optional pc_id string in the offer request:
None and the empty string are falsy. -/
def truthyStr : Option String → Bool
  | none => false
  | some s => s != ""

/-- Python dict assignment `m[k] = v` on an association list: overwrite in
place when the key exists (insertion order kept), append otherwise. -/
def dictInsert (k v : ConnId) (m : List (ConnId × ConnId)) :
    List (ConnId × ConnId) :=
  if m.any (fun e => e.1 == k) then
    m.map (fun e => if e.1 == k then (k, v) else e)
  else
    m ++ [(k, v)]

/-- What main.webrtc_offer did with the connection. -/
inductive OfferAction where
  /-- new SmallWebRTCConnection built and initialized, pipeline task scheduled. -/
  | created (pcId : ConnId) : OfferAction
  /-- existing connection renegotiated, no task scheduled. -/
  | renegotiated (pcId : ConnId) : OfferAction
  deriving Repr, DecidableEq

/-- main.webrtc_offer (lines 362-399).  When the request carries a truthy
pc_id that is a key of the map, the stored connection is renegotiated;
otherwise a new connection is built (its transport-generated pc_id enters
as `freshConn`) and run_pipeline is scheduled as a new tracked task
(named `freshTask`).  In both branches the answering connection is stored
in the map under the pc_id of its answer. -/
def webrtc_offer (st : ProcState) (pcId : Option String)
    (freshConn : ConnId) (freshTask : Nat) : OfferAction × ProcState :=
  if truthyStr pcId && st.peerConnections.any (fun e => e.1 == pcId.getD "") then
    let conn := ((st.peerConnections.find? (fun e => e.1 == pcId.getD "")).getD
      ("", "")).2
    (.renegotiated conn,
     { st with peerConnections := dictInsert conn conn st.peerConnections })
  else
    (.created freshConn,
     { st with
         peerConnections := dictInsert freshConn freshConn st.peerConnections,
         pipelineTasks := freshTask :: st.pipelineTasks })

/-- One observable step of the shutdown half of main.lifespan. -/
inductive ShutdownEvent where
  /-- `task.cancel()` on one tracked task. -/
  | cancelTask (t : Nat) : ShutdownEvent
  /-- bounded gather of the cancelled tasks; records the timeout constant
  and whether the wait timed out. -/
  | waitTasks (timeout : ℚ) (timedOut : Bool) : ShutdownEvent
  /-- `pc.disconnect()` coroutine for one registered connection. -/
  | disconnectConn (c : ConnId) : ShutdownEvent
  /-- bounded gather of the disconnects. -/
  | waitConns (timeout : ℚ) (timedOut : Bool) : ShutdownEvent
  deriving Repr, DecidableEq

/-- main.lifespan, shutdown half (lines 294-322): cancel every tracked
task, wait for them under timeout 2.0 and clear the set (both only when
the set is nonempty, an empty set is already clear), then disconnect every
registered connection, wait under an independent timeout 2.0 when there is
at least one, and clear the map unconditionally.  `tasksTimedOut` and
`connsTimedOut` say whether each bounded wait hit its timeout. -/
def lifespan_shutdown (st : ProcState) (tasksTimedOut connsTimedOut : Bool) :
    List ShutdownEvent × ProcState :=
  let cancelEvts := st.pipelineTasks.map ShutdownEvent.cancelTask
  let taskWaitEvts : List ShutdownEvent :=
    if st.pipelineTasks.isEmpty then []
    else [ShutdownEvent.waitTasks 2 tasksTimedOut]
  let tasksAfter : List Nat :=
    if st.pipelineTasks.isEmpty then st.pipelineTasks else []
  let discEvts := st.peerConnections.map
    (fun pc => ShutdownEvent.disconnectConn pc.2)
  let connWaitEvts : List ShutdownEvent :=
    if st.peerConnections.isEmpty then []
    else [ShutdownEvent.waitConns 2 connsTimedOut]
  (cancelEvts ++ taskWaitEvts ++ discEvts ++ connWaitEvts,
   { st with pipelineTasks := tasksAfter, peerConnections := [] })

/-- main.initialize_services (lines 261-287): store the settings and both
service dicts built by the provider factories (the factories live outside
the embedded files, so their resulting key lists enter as arguments), then
report False when either dict is empty. -/
def init_services (st : ProcState) (sttAvail llmAvail : List ProviderId) :
    ProcState × Bool :=
  let st1 : ProcState :=
    { st with settingsSet := true,
              startupStt := some sttAvail, startupLlm := some llmAvail }
  if sttAvail.isEmpty then (st1, false)
  else if llmAvail.isEmpty then (st1, false)
  else (st1, true)

/-- Result of main.main. -/
inductive MainOutcome where
  /-- `raise SystemExit(code)` after printing or logging a diagnostic. -/
  | exited (code : Nat) (diagnostic : Bool) : MainOutcome
  /-- `uvicorn.run(app, host, port)`. -/
  | serve (host : String) (port : Nat) : MainOutcome
  deriving Repr, DecidableEq

/-- main.main (lines 402-460): loading Settings may fail (`settingsOk`),
which prints guidance and raises SystemExit(1); a False from
initialize_services raises SystemExit(1) after its error logs; otherwise
uvicorn serves on the parsed host and port. -/
def main_entry (settingsOk : Bool) (host : String) (port : Nat)
    (sttAvail llmAvail : List ProviderId) (st : ProcState) :
    MainOutcome × ProcState :=
  if !settingsOk then (.exited 1 true, st)
  else
    let r := init_services st sttAvail llmAvail
    if !r.2 then (.exited 1 true, r.1)
    else (.serve host port, r.1)

/-- Control point of one switch endpoint call under the cooperative
scheduler. -/
inductive SwitchPhase where
  /-- call entered, nothing checked yet. -/
  | start (provider : ProviderId) : SwitchPhase
  /-- suspended on `await _pipeline_started_event.wait()`. -/
  | waitingGate (provider : ProviderId) : SwitchPhase
  /-- endpoint returned this response. -/
  | resolved (resp : SwitchProviderResponse) : SwitchPhase
  /-- the awaited forward raised and the exception propagated. -/
  | faulted : SwitchPhase
  deriving Repr, DecidableEq

/-- True once the call has returned or raised. -/
def SwitchPhase.finished : SwitchPhase → Bool
  | .resolved _ => true
  | .faulted => true
  | _ => false

/-- Small-step semantics of switch_stt_provider: from `start`, either
return the not-initialized failure immediately or move to the readiness
wait; from `waitingGate`, stay suspended while the event is clear, and run
the post-gate body once it is set. -/
def switchSttStep (forwardOk : Bool) :
    SwitchPhase × ProcState → SwitchPhase × ProcState
  | (.start p, st) =>
    if !st.sttSwitcher || !truthyDict st.cfgSttServices then
      (.resolved { success := false, error := some .notInitialized }, st)
    else
      (.waitingGate p, st)
  | (.waitingGate p, st) =>
    if st.pipelineStarted then
      match switch_stt_after_gate st p forwardOk with
      | (.responded r, st1) => (.resolved r, st1)
      | (.raised, st1) => (.faulted, st1)
    else
      (.waitingGate p, st)
  | (.resolved r, st) => (.resolved r, st)
  | (.faulted, st) => (.faulted, st)

/-- Small-step semantics of switch_llm_provider, symmetric. -/
def switchLlmStep (forwardOk : Bool) :
    SwitchPhase × ProcState → SwitchPhase × ProcState
  | (.start p, st) =>
    if !st.llmSwitcher || !truthyDict st.cfgLlmServices then
      (.resolved { success := false, error := some .notInitialized }, st)
    else
      (.waitingGate p, st)
  | (.waitingGate p, st) =>
    if st.pipelineStarted then
      match switch_llm_after_gate st p forwardOk with
      | (.responded r, st1) => (.resolved r, st1)
      | (.raised, st1) => (.faulted, st1)
    else
      (.waitingGate p, st)
  | (.resolved r, st) => (.resolved r, st)
  | (.faulted, st) => (.faulted, st)

/-! ## Claim theorems -/

/-- Claim C1: for every provider id not present in the service catalog for
a role, the switch endpoint for that role (with a registered switcher,
after readiness) returns a failure response and leaves the whole state,
in particular the current active provider of both roles, unchanged. -/
theorem claim_c1_unknown_provider_rejected (st : ProcState) (p : ProviderId)
    (fOk : Bool) (hready : st.pipelineStarted = true) :
    ((st.sttSwitcher && truthyDict st.cfgSttServices) = true →
      p ∉ st.cfgSttServices.getD [] →
      switch_stt_provider st p fOk =
        (.responded { success := false, provider := none,
                      error := some (.notAvailable p) }, st))
    ∧ ((st.llmSwitcher && truthyDict st.cfgLlmServices) = true →
      p ∉ st.cfgLlmServices.getD [] →
      switch_llm_provider st p fOk =
        (.responded { success := false, provider := none,
                      error := some (.notAvailable p) }, st)) := by
  constructor
  · intro hreg hmem
    rw [Bool.and_eq_true] at hreg
    simp [switch_stt_provider, switch_stt_after_gate, hreg.1, hreg.2, hmem]
  · intro hreg hmem
    rw [Bool.and_eq_true] at hreg
    simp [switch_llm_provider, switch_llm_after_gate, hreg.1, hreg.2, hmem]

/-- Witness for C1 at a concrete state: catalog ["a"], readiness set,
requesting the absent id "zzz". -/
theorem claim_c1_witness :
    switch_stt_provider
      (set_pipeline_started (set_service_switchers initState ["a"] ["x"]))
      "zzz" true =
      (.responded { success := false, provider := none,
                    error := some (.notAvailable "zzz") },
       set_pipeline_started (set_service_switchers initState ["a"] ["x"])) :=
  (claim_c1_unknown_provider_rejected _ "zzz" true (by decide)).1
    (by decide) (by decide)

/-- Claim C2: with a registered transcription buffer, set_stt_timeout
succeeds iff the value lies in the closed interval from 0.1 to 10.0; on
any failure the state (hence the stored timeout) is unchanged, and on
success the stored timeout becomes the requested value. -/
theorem claim_c2_timeout_range (st : ProcState) (s : ℚ) :
    (st.transcriptionBuffer.isSome = true →
      ((set_stt_timeout st s).1.success = true ↔ 1 / 10 ≤ s ∧ s ≤ 10))
    ∧ ((set_stt_timeout st s).1.success = false →
      (set_stt_timeout st s).2 = st)
    ∧ ((set_stt_timeout st s).1.success = true →
      (set_stt_timeout st s).2.transcriptionBuffer = some s) := by
  cases htb : st.transcriptionBuffer with
  | none => simp [set_stt_timeout, htb]
  | some t =>
    by_cases hr : s < 1 / 10 ∨ s > 10
    · have hres : set_stt_timeout st s =
          ({ success := false, error := some .outOfRange }, st) := by
        simp only [set_stt_timeout, htb]
        rw [if_pos hr]
      refine ⟨fun _ => ?_, fun _ => ?_, fun hs => ?_⟩
      · rw [hres]
        simp only [Bool.false_eq_true, false_iff, not_and]
        intro h1 h2
        rcases hr with hr | hr
        · exact absurd h1 (not_le.mpr hr)
        · exact absurd h2 (not_le.mpr hr)
      · rw [hres]
      · rw [hres] at hs
        simp at hs
    · have hok : 1 / 10 ≤ s ∧ s ≤ 10 := by
        rw [not_or, not_lt, not_lt] at hr
        exact ⟨hr.1, hr.2⟩
      have hres : set_stt_timeout st s =
          ({ success := true, timeout_seconds := some s },
           { st with transcriptionBuffer := some s }) := by
        simp only [set_stt_timeout, htb]
        rw [if_neg hr]
      refine ⟨fun _ => ?_, fun hf => ?_, fun _ => ?_⟩
      · rw [hres]
        simpa using hok
      · rw [hres] at hf
        simp at hf
      · rw [hres]

/-- Witness for C2 at a registered buffer and the in-range value 5. -/
theorem claim_c2_witness :
    ((set_stt_timeout (set_transcription_buffer initState 1) 5).1.success = true
      ↔ 1 / 10 ≤ (5 : ℚ) ∧ (5 : ℚ) ≤ 10) ∧
    ((set_stt_timeout (set_transcription_buffer initState 1) 5).1.success = true →
      (set_stt_timeout (set_transcription_buffer initState 1)
        5).2.transcriptionBuffer = some 5) :=
  ⟨(claim_c2_timeout_range (set_transcription_buffer initState 1) 5).1 (by decide),
   (claim_c2_timeout_range (set_transcription_buffer initState 1) 5).2.2⟩

/-- Claim C9: for either role, with the switcher registered and the id in
the catalog, an awaited forward that raises propagates the fault and
leaves the state unchanged (no partial commit), while a forward that
returns normally is followed by the commit of the current provider. -/
theorem claim_c9_commit_after_forward (st : ProcState) (p : ProviderId) :
    ((st.sttSwitcher && truthyDict st.cfgSttServices) = true →
      p ∈ st.cfgSttServices.getD [] →
      switch_stt_provider st p false = (.raised, st) ∧
      switch_stt_provider st p true =
        (.responded { success := true, provider := some p, error := none },
         { st with currentStt := some p }))
    ∧ ((st.llmSwitcher && truthyDict st.cfgLlmServices) = true →
      p ∈ st.cfgLlmServices.getD [] →
      switch_llm_provider st p false = (.raised, st) ∧
      switch_llm_provider st p true =
        (.responded { success := true, provider := some p, error := none },
         { st with currentLlm := some p })) := by
  constructor
  · intro hreg hmem
    rw [Bool.and_eq_true] at hreg
    constructor <;>
      simp [switch_stt_provider, switch_stt_after_gate, hreg.1, hreg.2, hmem]
  · intro hreg hmem
    rw [Bool.and_eq_true] at hreg
    constructor <;>
      simp [switch_llm_provider, switch_llm_after_gate, hreg.1, hreg.2, hmem]

/-- Witness for C9: catalog ["a", "b"], switching to "b" with a faulting
forward leaves the state unchanged. -/
theorem claim_c9_witness :
    switch_stt_provider (set_service_switchers initState ["a", "b"] ["x"])
      "b" false =
      (.raised, set_service_switchers initState ["a", "b"] ["x"]) :=
  ((claim_c9_commit_after_forward
    (set_service_switchers initState ["a", "b"] ["x"]) "b").1
    (by decide) (by decide)).1

/-- Claim C10: the current-providers endpoint is total (its response type
has no failure alternative): right after startup service creation it
returns null for both roles even though the startup catalog is nonempty,
in general it returns exactly the stored selection, and after a
registration with nonempty service dicts it returns the first key of each
dict. -/
theorem claim_c10_current_providers :
    (∀ stt llm : List ProviderId,
      get_current_providers (init_services initState stt llm).1 = (none, none))
    ∧ (∀ st : ProcState,
      get_current_providers st = (st.currentStt, st.currentLlm))
    ∧ (∀ (st : ProcState) (a b : ProviderId) (l m : List ProviderId),
      get_current_providers (set_service_switchers st (a :: l) (b :: m)) =
        (some a, some b)) := by
  refine ⟨fun stt llm => ?_, fun st => rfl, fun st a b l m => ?_⟩
  · simp only [init_services]
    split <;> [skip; split] <;> rfl
  · simp [get_current_providers, set_service_switchers]

/-- Claim C3: with a registered switcher the call moves from entry to the
readiness wait without validating or committing anything (state
unchanged); while the readiness flag is clear it stays suspended for any
number of scheduler steps (no timeout); once the flag is set one step
finishes the call; and with no registered switcher the call returns the
not-initialized failure in one step without ever suspending. -/
theorem claim_c3_gate_blocking (st : ProcState) (p : ProviderId) (fOk : Bool) :
    ((!st.sttSwitcher || !truthyDict st.cfgSttServices) = true →
      switchSttStep fOk (.start p, st) =
        (.resolved { success := false, provider := none,
                     error := some .notInitialized }, st))
    ∧ ((st.sttSwitcher && truthyDict st.cfgSttServices) = true →
      switchSttStep fOk (.start p, st) = (.waitingGate p, st))
    ∧ (st.pipelineStarted = false →
      ∀ n : ℕ, (switchSttStep fOk)^[n] (.waitingGate p, st) =
        (.waitingGate p, st))
    ∧ (st.pipelineStarted = true →
      (switchSttStep fOk (.waitingGate p, st)).1.finished = true)
    ∧ ((!st.llmSwitcher || !truthyDict st.cfgLlmServices) = true →
      switchLlmStep fOk (.start p, st) =
        (.resolved { success := false, provider := none,
                     error := some .notInitialized }, st))
    ∧ ((st.llmSwitcher && truthyDict st.cfgLlmServices) = true →
      switchLlmStep fOk (.start p, st) = (.waitingGate p, st))
    ∧ (st.pipelineStarted = false →
      ∀ n : ℕ, (switchLlmStep fOk)^[n] (.waitingGate p, st) =
        (.waitingGate p, st))
    ∧ (st.pipelineStarted = true →
      (switchLlmStep fOk (.waitingGate p, st)).1.finished = true) := by
  refine ⟨fun h => ?_, fun h => ?_, fun h n => ?_, fun h => ?_,
          fun h => ?_, fun h => ?_, fun h n => ?_, fun h => ?_⟩
  · simp [switchSttStep, h]
  · rw [Bool.and_eq_true] at h
    simp [switchSttStep, h.1, h.2]
  · have hstep : switchSttStep fOk (.waitingGate p, st) = (.waitingGate p, st) := by
      simp [switchSttStep, h]
    induction n with
    | zero => rfl
    | succ n ih => rw [Function.iterate_succ_apply, hstep, ih]
  · rcases hsg : switch_stt_after_gate st p fOk with ⟨o, st1⟩
    cases o <;> simp [switchSttStep, h, hsg, SwitchPhase.finished]
  · simp [switchLlmStep, h]
  · rw [Bool.and_eq_true] at h
    simp [switchLlmStep, h.1, h.2]
  · have hstep : switchLlmStep fOk (.waitingGate p, st) = (.waitingGate p, st) := by
      simp [switchLlmStep, h]
    induction n with
    | zero => rfl
    | succ n ih => rw [Function.iterate_succ_apply, hstep, ih]
  · rcases hsg : switch_llm_after_gate st p fOk with ⟨o, st1⟩
    cases o <;> simp [switchLlmStep, h, hsg, SwitchPhase.finished]

/-- Witness for C3: with nothing registered the call resolves in one step;
with a registered switcher but the flag clear, five scheduler steps leave
the call suspended on the gate. -/
theorem claim_c3_witness :
    switchSttStep true (.start "a", initState) =
      (.resolved { success := false, provider := none,
                   error := some .notInitialized }, initState)
    ∧ (switchSttStep true)^[5]
        (.waitingGate "a", set_service_switchers initState ["a"] ["x"]) =
      (.waitingGate "a", set_service_switchers initState ["a"] ["x"]) :=
  ⟨(claim_c3_gate_blocking initState "a" true).1 (by decide),
   (claim_c3_gate_blocking (set_service_switchers initState ["a"] ["x"])
     "a" true).2.2.1 (by decide) 5⟩

/-- Counterexample to claim C4 as stated: with STT catalog ["a", "b"], a
successful switch moves the selection to "b", yet a further
set_service_switchers call — what a later session performs when it
registers its collaborators — resets the selection to the first catalog
entry "a", so a collaborator registration does mutate ActiveSelection. -/
theorem claim_c4_counterexample :
    (switch_stt_provider
      (set_pipeline_started (set_service_switchers initState ["a", "b"] ["x"]))
      "b" true).2.currentStt = some "b"
    ∧ (set_service_switchers
        (switch_stt_provider
          (set_pipeline_started
            (set_service_switchers initState ["a", "b"] ["x"]))
          "b" true).2 ["a", "b"] ["x"]).currentStt = some "a" := by
  decide

/-- Claim C4 as amended: every registration with a truthy (nonempty)
service dict sets the ActiveSelection of that role to the first catalog
key — including registrations by later sessions, which therefore reset a
previously switched selection — a registration with an empty dict leaves
it, a switch for one role never touches the other role, a switch changes
its own role only by committing the requested id with a success response,
and no other operation (timeout set, prompt set, converter or buffer
registration, gate signal or reset, offer handling, shutdown, startup
service creation) mutates either selection. -/
theorem claim_c4_selection_transitions (st : ProcState) (p : ProviderId)
    (fOk : Bool) (s : ℚ) (c : Option String) :
    (∀ (a b : ProviderId) (l m : List ProviderId),
      (set_service_switchers st (a :: l) (b :: m)).currentStt = some a
      ∧ (set_service_switchers st (a :: l) (b :: m)).currentLlm = some b)
    ∧ (∀ llmS, (set_service_switchers st [] llmS).currentStt = st.currentStt)
    ∧ (∀ sttS, (set_service_switchers st sttS []).currentLlm = st.currentLlm)
    ∧ ((switch_stt_provider st p fOk).2.currentLlm = st.currentLlm)
    ∧ ((switch_stt_provider st p fOk).2.currentStt = st.currentStt ∨
       ((switch_stt_provider st p fOk).1 =
          .responded { success := true, provider := some p, error := none }
        ∧ (switch_stt_provider st p fOk).2.currentStt = some p))
    ∧ ((switch_llm_provider st p fOk).2.currentStt = st.currentStt)
    ∧ ((switch_llm_provider st p fOk).2.currentLlm = st.currentLlm ∨
       ((switch_llm_provider st p fOk).1 =
          .responded { success := true, provider := some p, error := none }
        ∧ (switch_llm_provider st p fOk).2.currentLlm = some p))
    ∧ ((set_stt_timeout st s).2.currentStt = st.currentStt
      ∧ (set_stt_timeout st s).2.currentLlm = st.currentLlm)
    ∧ ((set_prompt_sections st c).2.currentStt = st.currentStt
      ∧ (set_prompt_sections st c).2.currentLlm = st.currentLlm)
    ∧ ((set_llm_converter st).currentStt = st.currentStt
      ∧ (set_llm_converter st).currentLlm = st.currentLlm)
    ∧ ((set_transcription_buffer st s).currentStt = st.currentStt
      ∧ (set_transcription_buffer st s).currentLlm = st.currentLlm)
    ∧ ((set_pipeline_started st).currentStt = st.currentStt
      ∧ (reset_pipeline_started st).currentStt = st.currentStt
      ∧ (set_pipeline_started st).currentLlm = st.currentLlm
      ∧ (reset_pipeline_started st).currentLlm = st.currentLlm)
    ∧ (∀ (pcId : Option String) (fc : ConnId) (ft : ℕ),
      (webrtc_offer st pcId fc ft).2.currentStt = st.currentStt
      ∧ (webrtc_offer st pcId fc ft).2.currentLlm = st.currentLlm)
    ∧ (∀ tTO cTO : Bool,
      (lifespan_shutdown st tTO cTO).2.currentStt = st.currentStt
      ∧ (lifespan_shutdown st tTO cTO).2.currentLlm = st.currentLlm)
    ∧ (∀ sttA llmA : List ProviderId,
      (init_services st sttA llmA).1.currentStt = st.currentStt
      ∧ (init_services st sttA llmA).1.currentLlm = st.currentLlm) := by
  refine ⟨fun a b l m => ⟨?_, ?_⟩, fun llmS => ?_, fun sttS => ?_, ?_, ?_, ?_, ?_,
          ?_, ?_, ⟨rfl, rfl⟩, ⟨rfl, rfl⟩, ⟨rfl, rfl, rfl, rfl⟩,
          fun pcId fc ft => ?_, fun tTO cTO => ⟨rfl, rfl⟩, fun sttA llmA => ?_⟩
  · simp [set_service_switchers]
  · simp [set_service_switchers]
  · simp [set_service_switchers]
    split <;> rfl
  · simp [set_service_switchers]
    split <;> rfl
  · by_cases h1 : (!st.sttSwitcher || !truthyDict st.cfgSttServices) = true
    · simp [switch_stt_provider, h1]
    · rw [Bool.not_eq_true] at h1
      by_cases h2 : p ∈ st.cfgSttServices.getD []
      · cases fOk <;>
          simp [switch_stt_provider, switch_stt_after_gate, h1, h2]
      · simp [switch_stt_provider, switch_stt_after_gate, h1, h2]
  · by_cases h1 : (!st.sttSwitcher || !truthyDict st.cfgSttServices) = true
    · left; simp [switch_stt_provider, h1]
    · rw [Bool.not_eq_true] at h1
      by_cases h2 : p ∈ st.cfgSttServices.getD []
      · cases fOk
        · left; simp [switch_stt_provider, switch_stt_after_gate, h1, h2]
        · right; simp [switch_stt_provider, switch_stt_after_gate, h1, h2]
      · left; simp [switch_stt_provider, switch_stt_after_gate, h1, h2]
  · by_cases h1 : (!st.llmSwitcher || !truthyDict st.cfgLlmServices) = true
    · simp [switch_llm_provider, h1]
    · rw [Bool.not_eq_true] at h1
      by_cases h2 : p ∈ st.cfgLlmServices.getD []
      · cases fOk <;>
          simp [switch_llm_provider, switch_llm_after_gate, h1, h2]
      · simp [switch_llm_provider, switch_llm_after_gate, h1, h2]
  · by_cases h1 : (!st.llmSwitcher || !truthyDict st.cfgLlmServices) = true
    · left; simp [switch_llm_provider, h1]
    · rw [Bool.not_eq_true] at h1
      by_cases h2 : p ∈ st.cfgLlmServices.getD []
      · cases fOk
        · left; simp [switch_llm_provider, switch_llm_after_gate, h1, h2]
        · right; simp [switch_llm_provider, switch_llm_after_gate, h1, h2]
      · left; simp [switch_llm_provider, switch_llm_after_gate, h1, h2]
  · cases htb : st.transcriptionBuffer <;>
      simp [set_stt_timeout, htb] <;> split <;> simp
  · cases hc : st.llmConverter <;> simp [set_prompt_sections, hc]
  · unfold webrtc_offer
    split <;> exact ⟨rfl, rfl⟩
  · unfold init_services
    split
    · exact ⟨rfl, rfl⟩
    · split <;> exact ⟨rfl, rfl⟩

/-- Task-phase events of the shutdown trace: cancellation of a session
task or the bounded wait on the cancelled tasks. -/
def isTaskPhaseEvent : ShutdownEvent → Bool
  | .cancelTask _ => true
  | .waitTasks _ _ => true
  | .disconnectConn _ => false
  | .waitConns _ _ => false

/-- Claim C5: shutdown clears the tracked task set and the connection map
regardless of timeouts, cancels every tracked task, waits on them under
timeout 2.0 when there is at least one, issues a disconnect for every
registered connection and waits under an independent timeout 2.0, every
wait in the trace uses the constant 2.0, and the trace splits into a task
phase followed by a connection phase. -/
theorem claim_c5_shutdown (st : ProcState) (tTO cTO : Bool) :
    ((lifespan_shutdown st tTO cTO).2.pipelineTasks = []
      ∧ (lifespan_shutdown st tTO cTO).2.peerConnections = [])
    ∧ (∀ t ∈ st.pipelineTasks,
        ShutdownEvent.cancelTask t ∈ (lifespan_shutdown st tTO cTO).1)
    ∧ (st.pipelineTasks ≠ [] →
        ShutdownEvent.waitTasks 2 tTO ∈ (lifespan_shutdown st tTO cTO).1)
    ∧ (∀ pc ∈ st.peerConnections,
        ShutdownEvent.disconnectConn pc.2 ∈ (lifespan_shutdown st tTO cTO).1)
    ∧ (st.peerConnections ≠ [] →
        ShutdownEvent.waitConns 2 cTO ∈ (lifespan_shutdown st tTO cTO).1)
    ∧ (∀ (q : ℚ) (b : Bool),
        ShutdownEvent.waitTasks q b ∈ (lifespan_shutdown st tTO cTO).1 → q = 2)
    ∧ (∀ (q : ℚ) (b : Bool),
        ShutdownEvent.waitConns q b ∈ (lifespan_shutdown st tTO cTO).1 → q = 2)
    ∧ (∃ pre post, (lifespan_shutdown st tTO cTO).1 = pre ++ post
        ∧ (∀ e ∈ pre, isTaskPhaseEvent e = true)
        ∧ (∀ e ∈ post, isTaskPhaseEvent e = false)) := by
  have htr : (lifespan_shutdown st tTO cTO).1 =
      st.pipelineTasks.map ShutdownEvent.cancelTask ++
      ((if st.pipelineTasks.isEmpty then []
        else [ShutdownEvent.waitTasks 2 tTO]) ++
       (st.peerConnections.map (fun pc => ShutdownEvent.disconnectConn pc.2) ++
        (if st.peerConnections.isEmpty then []
         else [ShutdownEvent.waitConns 2 cTO]))) := by
    simp only [lifespan_shutdown, List.append_assoc]
  refine ⟨⟨?_, rfl⟩, fun t ht => ?_, fun hne => ?_, fun pc hpc => ?_,
          fun hne => ?_, fun q b hmem => ?_, fun q b hmem => ?_, ?_⟩
  · show (if st.pipelineTasks.isEmpty then st.pipelineTasks else []) = []
    split
    · exact List.isEmpty_iff.mp (by assumption)
    · rfl
  · rw [htr]
    exact List.mem_append_left _ (List.mem_map_of_mem _ ht)
  · rw [htr]
    refine List.mem_append_right _ (List.mem_append_left _ ?_)
    simp [List.isEmpty_iff, hne]
  · rw [htr]
    refine List.mem_append_right _ (List.mem_append_right _
      (List.mem_append_left _ (List.mem_map_of_mem _ hpc)))
  · rw [htr]
    refine List.mem_append_right _ (List.mem_append_right _
      (List.mem_append_right _ ?_))
    simp [List.isEmpty_iff, hne]
  · rw [htr] at hmem
    rcases List.mem_append.mp hmem with h | h
    · obtain ⟨t, _, he⟩ := List.mem_map.mp h
      cases he
    rcases List.mem_append.mp h with h | h
    · split at h
      · cases h
      · injection List.mem_singleton.mp h
    rcases List.mem_append.mp h with h | h
    · obtain ⟨pc2, _, he⟩ := List.mem_map.mp h
      cases he
    · split at h
      · cases h
      · exact ShutdownEvent.noConfusion (List.mem_singleton.mp h)
  · rw [htr] at hmem
    rcases List.mem_append.mp hmem with h | h
    · obtain ⟨t, _, he⟩ := List.mem_map.mp h
      cases he
    rcases List.mem_append.mp h with h | h
    · split at h
      · cases h
      · exact ShutdownEvent.noConfusion (List.mem_singleton.mp h)
    rcases List.mem_append.mp h with h | h
    · obtain ⟨pc2, _, he⟩ := List.mem_map.mp h
      cases he
    · split at h
      · cases h
      · injection List.mem_singleton.mp h
  · refine ⟨st.pipelineTasks.map ShutdownEvent.cancelTask ++
      (if st.pipelineTasks.isEmpty then []
       else [ShutdownEvent.waitTasks 2 tTO]),
      st.peerConnections.map (fun pc => ShutdownEvent.disconnectConn pc.2) ++
      (if st.peerConnections.isEmpty then []
       else [ShutdownEvent.waitConns 2 cTO]),
      by rw [htr, List.append_assoc], fun e he => ?_, fun e he => ?_⟩
    · rcases List.mem_append.mp he with h | h
      · obtain ⟨t, _, rfl⟩ := List.mem_map.mp h
        rfl
      · split at h
        · cases h
        · rw [List.mem_singleton.mp h]
          rfl
    · rcases List.mem_append.mp he with h | h
      · obtain ⟨pc2, _, rfl⟩ := List.mem_map.mp h
        rfl
      · split at h
        · cases h
        · rw [List.mem_singleton.mp h]
          rfl

/-- Witness for C5 with one tracked task and one registered connection:
the cancel and disconnect both appear in the trace and both containers
end empty. -/
theorem claim_c5_witness :
    ShutdownEvent.cancelTask 7 ∈
      (lifespan_shutdown
        { initState with pipelineTasks := [7],
                         peerConnections := [("k", "k")] } true false).1
    ∧ ShutdownEvent.disconnectConn "k" ∈
      (lifespan_shutdown
        { initState with pipelineTasks := [7],
                         peerConnections := [("k", "k")] } true false).1
    ∧ (lifespan_shutdown
        { initState with pipelineTasks := [7],
                         peerConnections := [("k", "k")] } true false).2.pipelineTasks = [] :=
  ⟨(claim_c5_shutdown
      { initState with pipelineTasks := [7], peerConnections := [("k", "k")] }
      true false).2.1 7 (by decide),
   (claim_c5_shutdown
      { initState with pipelineTasks := [7], peerConnections := [("k", "k")] }
      true false).2.2.2.1 ("k", "k") (by decide),
   (claim_c5_shutdown
      { initState with pipelineTasks := [7], peerConnections := [("k", "k")] }
      true false).1.1⟩

/-- Keys of the peer connection map. -/
def connKeys (st : ProcState) : List ConnId :=
  st.peerConnections.map Prod.fst

/-- Inserting a key that is not present appends one entry. -/
theorem dictInsert_length_of_not_mem (k v : ConnId)
    (m : List (ConnId × ConnId)) (h : k ∉ m.map Prod.fst) :
    (dictInsert k v m).length = m.length + 1 := by
  have hany : m.any (fun e => e.1 == k) = false := by
    rw [List.any_eq_false]
    intro e he
    simp only [beq_iff_eq]
    intro hek
    exact h (hek ▸ List.mem_map_of_mem Prod.fst he)
  simp [dictInsert, hany]

/-- Claim C6: an offer whose pc_id is absent or not a key of the map adds
exactly one map entry and schedules exactly one new session task; an
offer with a known pc_id renegotiates the stored connection and schedules
no new task.  The hypotheses record that the transport-generated pc_id of
a new connection is fresh and that map keys, being transport-generated
pc_ids, are never the empty string. -/
theorem claim_c6_offer (st : ProcState) (pcId : Option String)
    (freshConn : ConnId) (freshTask : ℕ)
    (hfresh : freshConn ∉ connKeys st)
    (hnoEmptyKey : "" ∉ connKeys st) :
    ((pcId = none ∨ ∀ k, pcId = some k → k ∉ connKeys st) →
      ((webrtc_offer st pcId freshConn freshTask).1 = .created freshConn
       ∧ (webrtc_offer st pcId freshConn freshTask).2.peerConnections.length =
           st.peerConnections.length + 1
       ∧ (webrtc_offer st pcId freshConn freshTask).2.pipelineTasks.length =
           st.pipelineTasks.length + 1))
    ∧ (∀ k, pcId = some k → k ∈ connKeys st →
      ((webrtc_offer st pcId freshConn freshTask).2.pipelineTasks =
         st.pipelineTasks
       ∧ ∃ c, (webrtc_offer st pcId freshConn freshTask).1 =
           .renegotiated c)) := by
  constructor
  · intro hnew
    have hcond : (truthyStr pcId &&
        st.peerConnections.any (fun e => e.1 == pcId.getD "")) = false := by
      cases pcId with
      | none => rfl
      | some k =>
        rcases hnew with h | h
        · simp at h
        · have hk : k ∉ connKeys st := h k rfl
          have hany : st.peerConnections.any (fun e => e.1 == k) = false := by
            rw [List.any_eq_false]
            intro e he
            simp only [beq_iff_eq]
            intro hek
            exact hk (hek ▸ List.mem_map_of_mem Prod.fst he)
          simp [truthyStr, hany]
    refine ⟨?_, ?_, ?_⟩
    · simp [webrtc_offer, hcond]
    · simp only [webrtc_offer, hcond, Bool.false_eq_true, if_false]
      exact dictInsert_length_of_not_mem freshConn freshConn
        st.peerConnections hfresh
    · simp [webrtc_offer, hcond]
  · intro k hpc hkmem
    subst hpc
    have hkne : k ≠ "" := fun he => hnoEmptyKey (he ▸ hkmem)
    have hcond : (truthyStr (some k) &&
        st.peerConnections.any (fun e => e.1 == k)) = true := by
      obtain ⟨e, he, hek⟩ := List.mem_map.mp hkmem
      simp only [truthyStr, Bool.and_eq_true, List.any_eq_true]
      exact ⟨bne_iff_ne.mpr hkne, e, he, beq_iff_eq.mpr hek⟩
    constructor
    · simp [webrtc_offer, hcond]
    · simp [webrtc_offer, hcond]

/-- Witness for C6: a one-entry map; an offer without pc_id grows the map
by one entry, an offer with the known pc_id leaves the task set alone. -/
theorem claim_c6_witness :
    ((webrtc_offer { initState with peerConnections := [("k", "k")] }
        none "f" 3).2.peerConnections.length =
      ({ initState with
          peerConnections := [("k", "k")] } : ProcState).peerConnections.length
        + 1)
    ∧ ((webrtc_offer { initState with peerConnections := [("k", "k")] }
        (some "k") "f" 3).2.pipelineTasks =
      ({ initState with
          peerConnections := [("k", "k")] } : ProcState).pipelineTasks) :=
  ⟨((claim_c6_offer { initState with peerConnections := [("k", "k")] }
      none "f" 3 (by decide) (by decide)).1 (Or.inl rfl)).2.1,
   ((claim_c6_offer { initState with peerConnections := [("k", "k")] }
      (some "k") "f" 3 (by decide) (by decide)).2 "k" rfl (by decide)).1⟩

/-- Counterexample to claim C7 as stated: right after startup service
creation the catalog for each role is nonempty and no session has
registered anything, yet the available-providers endpoint returns empty
lists for both roles instead of the catalog contents. -/
theorem claim_c7_counterexample :
    (init_services initState ["deepgram"] ["gemini"]).1.startupStt =
      some ["deepgram"]
    ∧ (init_services initState ["deepgram"] ["gemini"]).1.startupLlm =
      some ["gemini"]
    ∧ get_available_providers (fun _ => none) (fun _ => none)
        (init_services initState ["deepgram"] ["gemini"]).1 = ([], []) := by
  decide

/-- Claim C7 as amended: the endpoint lists the service dicts that a
session registered with the config module, each key paired with its label
(falling back to the id itself): after a registration with nonempty dicts
it returns exactly those entries in insertion order, while before any
registration — in particular right after startup service creation,
whatever the catalog — it returns empty lists for both roles. -/
theorem claim_c7_available_providers
    (sttLabels llmLabels : ProviderId → Option String) :
    (∀ (st : ProcState) (a b : ProviderId) (l m : List ProviderId),
      get_available_providers sttLabels llmLabels
        (set_service_switchers st (a :: l) (b :: m)) =
        ((a :: l).map (fun p => ProviderInfo.mk p ((sttLabels p).getD p)),
         (b :: m).map (fun p => ProviderInfo.mk p ((llmLabels p).getD p))))
    ∧ (∀ stt llm : List ProviderId,
      get_available_providers sttLabels llmLabels
        (init_services initState stt llm).1 = ([], []))
    ∧ get_available_providers sttLabels llmLabels initState = ([], []) := by
  refine ⟨fun st a b l m => ?_, fun stt llm => ?_, rfl⟩
  · simp [get_available_providers, set_service_switchers, truthyDict]
  · simp only [init_services]
    split <;> [skip; split] <;> rfl

/-- Claim C8: main exits with status 1 and a diagnostic exactly when
settings loading fails or either provider role resolves to zero available
providers; otherwise it serves on the requested host and port. -/
theorem claim_c8_exit_status (settingsOk : Bool) (host : String) (port : ℕ)
    (sttAvail llmAvail : List ProviderId) (st : ProcState) :
    ((main_entry settingsOk host port sttAvail llmAvail st).1 =
        .exited 1 true ↔
      (settingsOk = false ∨ sttAvail = [] ∨ llmAvail = []))
    ∧ ((main_entry settingsOk host port sttAvail llmAvail st).1 =
        .serve host port ↔
      (settingsOk = true ∧ sttAvail ≠ [] ∧ llmAvail ≠ [])) := by
  cases settingsOk with
  | false => simp [main_entry]
  | true => cases sttAvail <;> cases llmAvail <;>
      simp [main_entry, init_services]

end Tambourine
